import Mathlib

/-!
Verification of the root command dispatcher of crunchy-cli
(`src/cli/root.go`): logger configuration from global flags, the
pre-run hook, HTTP client construction, and the `Execute` boundary
that turns command outcomes into log lines and a process exit code.
-/

namespace CrunchyCli

/-- The three log levels of the `commands` logger (`Debug`, `Info`, `Err`). -/
inductive LogLevel where
  | debug
  | info
  | err
deriving DecidableEq, Repr

/-- A single call the dispatcher makes into the logger: a level and the
formatted message. -/
structure LogCall where
  level : LogLevel
  msg : String
deriving DecidableEq, Repr

/-- Modelled from the spec: the `commands.Logger` implementation is not under
`src/`; per section 4.2 it is constructed by `NewLogger(debugEnabled,
infoEnabled, errorEnabled)` and each level is emitted only when enabled. -/
structure Logger where
  debugEnabled : Bool
  infoEnabled : Bool
  errorEnabled : Bool
deriving DecidableEq, Repr

/-- `commands.NewLogger(debug, info, error)`. -/
def NewLogger (d i e : Bool) : Logger := ⟨d, i, e⟩

/-- Whether the logger prints a call at the given level.
Modelled from the spec, section 4.2. -/
def Logger.enabled (l : Logger) : LogLevel → Bool
  | .debug => l.debugEnabled
  | .info => l.infoEnabled
  | .err => l.errorEnabled

/-- `utils.Log` as set by `init` in `root.go`: `commands.NewLogger(false, true, true)`. -/
def initLogger : Logger := NewLogger false true true

/-- The parsed global flags of `RootCmd` (`quietFlag`, `verboseFlag`,
`proxyFlag`, `useragentFlag`). -/
structure Flags where
  quiet : Bool
  verbose : Bool
  proxy : String
  useragent : String
deriving DecidableEq, Repr

/-- The logger selected by the first lines of `PersistentPreRunE`:
verbose wins, then quiet, otherwise the current `utils.Log` is kept. -/
def preRunLogger (fl : Flags) (current : Logger) : Logger :=
  if fl.verbose then NewLogger true true true
  else if fl.quiet then NewLogger false false false
  else current

/-- The text of the Go error `context.Canceled`. -/
def contextCanceledMsg : String := "context canceled"

/-- The Go call `strings.HasSuffix s suffix`. -/
def goHasSuffix (s suffix : String) : Bool := suffix.data.isSuffixOf s.data

/-- The shared HTTP client `utils.Client`: proxy (if any) and the
user-agent carried on outgoing requests. -/
structure HTTPClient where
  proxy : Option String
  userAgent : String
deriving DecidableEq, Repr

/-- Modelled from the spec: `utils.CreateOrDefaultClient` is not under `src/`.
Per section 4.3 it fails when the proxy string is non-empty but not a valid
proxy URL, returns a default client on an empty proxy, and the returned client
always carries the given user-agent. URL validity is abstracted as the
predicate `validProxyURL`. -/
def CreateOrDefaultClient (validProxyURL : String → Bool)
    (proxy userAgent : String) : Except String HTTPClient :=
  if proxy = "" then .ok ⟨none, userAgent⟩
  else if validProxyURL proxy then .ok ⟨some proxy, userAgent⟩
  else .error ("invalid proxy url: " ++ proxy)

/-- The message of the `utils.Log.Debug` call in `PersistentPreRunE`:
`"Executing `%s` command with %d arg(s)"` formatted with the command name
and the argument count. -/
def debugMsg (cmdName : String) (nargs : Nat) : String :=
  "Executing `" ++ cmdName ++ "` command with " ++ toString nargs ++ " arg(s)"

/-- What `RootCmd.PersistentPreRunE` leaves behind: the (re)configured
`utils.Log`, the logger calls it made, the constructed `utils.Client` if
any, and the error it returns. -/
structure PreRunResult where
  logger : Logger
  calls : List LogCall
  client : Option HTTPClient
  error : Option String
deriving DecidableEq, Repr

/-- `RootCmd.PersistentPreRunE`: select the logger from the flags, emit the
debug line, construct the shared client, and return the construction error. -/
def PersistentPreRunE (validProxyURL : String → Bool) (fl : Flags)
    (current : Logger) (cmdName : String) (nargs : Nat) : PreRunResult :=
  let log := preRunLogger fl current
  let dbg : LogCall := ⟨.debug, debugMsg cmdName nargs⟩
  match CreateOrDefaultClient validProxyURL fl.proxy fl.useragent with
  | .ok c => ⟨log, [dbg], some c, none⟩
  | .error e => ⟨log, [dbg], none, some e⟩

/-- One step of `PersistentPreRunE`, in source order, for the ordering claim:
reconfiguring `utils.Log`, a logger call under the then-active logger
(with whether it is printed), and the client construction. -/
inductive PreRunEvent where
  | configureLogger (l : Logger)
  | emitAttempt (active : Logger) (c : LogCall) (printed : Bool)
  | buildClient (proxy userAgent : String)
deriving DecidableEq, Repr

/-- The sequence of effects of `RootCmd.PersistentPreRunE`, transcribed in
the statement order of the source: logger selection first, then the debug
line, then `utils.CreateOrDefaultClient`. -/
def preRunTrace (fl : Flags) (current : Logger)
    (cmdName : String) (nargs : Nat) : List PreRunEvent :=
  let log := preRunLogger fl current
  let dbg : LogCall := ⟨.debug, debugMsg cmdName nargs⟩
  [ .configureLogger log,
    .emitAttempt log dbg (log.enabled dbg.level),
    .buildClient fl.proxy fl.useragent ]

/-- The outcome `Execute` observes from `RootCmd.Execute()`: normal return,
an error, or a panic with a payload (formatted with `%v`). -/
inductive RunResult where
  | ok
  | errored (msg : String)
  | panicked (payload : String)
deriving DecidableEq, Repr

/-- What the `Execute` boundary does: the logger calls it makes and the
`os.Exit` code, `none` when `os.Exit` is never called (the process then
terminates normally with code 0). -/
structure ExecResult where
  calls : List LogCall
  exit : Option Nat
deriving DecidableEq, Repr

/-- The `Execute` function of `root.go`: the deferred `recover` turns a
panic into an error line (payload plus `debug.Stack()` under `IsDev`, a
generic `Unexpected error` line otherwise) and `os.Exit(1)`; an error from
`RootCmd.Execute()` is logged as `An error occurred: ...` unless its message
ends with `context.Canceled.Error()`, and `os.Exit(1)` follows either way. -/
def Execute (isDev : Bool) (stack : String) (r : RunResult) : ExecResult :=
  match r with
  | .ok => ⟨[], none⟩
  | .panicked p =>
      if isDev then ⟨[⟨.err, p ++ ": " ++ stack⟩], some 1⟩
      else ⟨[⟨.err, "Unexpected error: " ++ p⟩], some 1⟩
  | .errored msg =>
      if goHasSuffix msg contextCanceledMsg then ⟨[], some 1⟩
      else ⟨[⟨.err, "An error occurred: " ++ msg⟩], some 1⟩

/-- The process exit code produced by the boundary: the `os.Exit` argument
when called, otherwise 0. -/
def exitCode (e : ExecResult) : Nat := e.exit.getD 0

/-- The default value of the `--useragent` flag registered in `init`:
`fmt.Sprintf("crunchy-cli/%s", utils.Version)`. -/
def defaultUseragent (version : String) : String := "crunchy-cli/" ++ version

/-- The value the `useragentFlag` variable holds after flag parsing:
the supplied value, or the registered default when not supplied
(cobra `StringVar` semantics). -/
def useragentFlagValue (supplied : Option String) (version : String) : String :=
  supplied.getD (defaultUseragent version)

/-- The `SilenceErrors` / `SilenceUsage` settings of a cobra command. -/
structure CobraSettings where
  silenceErrors : Bool
  silenceUsage : Bool
deriving DecidableEq, Repr

/-- The settings of `RootCmd` in `root.go`: both silenced. -/
def rootCmdSettings : CobraSettings := ⟨true, true⟩

/-- The stage at which an invocation fails inside `RootCmd.Execute()`:
global flag parsing, subcommand lookup, the pre-run hook, or the matched
command body itself. -/
inductive CobraStage where
  | flagParse
  | commandLookup
  | preRunHook
  | runBody
deriving DecidableEq, Repr

/-- Modelled from the spec: the cobra library is not part of this
repository. `RootCmd.Execute()` returns an error arising at any stage to
the caller; cobra itself prints an `Error:` line only when `SilenceErrors`
is false, and a usage block only when `SilenceUsage` is false and the
failure is a parse or lookup failure. Returns the lines cobra prints and
the value `RootCmd.Execute()` returns. -/
def cobraExecute (s : CobraSettings) (stage : CobraStage)
    (r : Except String Unit) : List String × Except String Unit :=
  match r with
  | .ok _ => ([], .ok ())
  | .error e =>
      ((if s.silenceErrors then [] else ["Error: " ++ e]) ++
        (if !s.silenceUsage &&
            (stage = .flagParse || stage = .commandLookup) then
          ["Usage: crunchy-cli ..."] else []),
        .error e)

/-- The whole dispatcher: `RootCmd.Execute()` with the settings of `RootCmd`,
followed by the `Execute` boundary of `root.go` on what it returns.
Returns the lines cobra prints and the boundary result. -/
def fullDispatch (isDev : Bool) (stack : String) (stage : CobraStage)
    (r : Except String Unit) : List String × ExecResult :=
  let (cobraLines, ret) := cobraExecute rootCmdSettings stage r
  match ret with
  | .ok _ => (cobraLines, Execute isDev stack .ok)
  | .error e => (cobraLines, Execute isDev stack (.errored e))

/-- C1: when the returned error message ends with the cancellation marker,
the dispatcher exits with code 1 and makes no logger call at all, so in
particular no `An error occurred` line is emitted. -/
theorem execute_cancellation_silent (isDev : Bool) (stack msg : String)
    (h : goHasSuffix msg contextCanceledMsg = true) :
    (Execute isDev stack (.errored msg)).exit = some 1 ∧
    (Execute isDev stack (.errored msg)).calls = [] := by
  simp [Execute, h]

theorem execute_cancellation_silent_witness :
    goHasSuffix "context canceled" contextCanceledMsg = true ∧
    (Execute false "" (.errored "context canceled")).exit = some 1 ∧
    (Execute false "" (.errored "context canceled")).calls = [] :=
  ⟨by decide,
    (execute_cancellation_silent false "" "context canceled" (by decide)).1,
    (execute_cancellation_silent false "" "context canceled" (by decide)).2⟩

/-- C2: when the returned error message does not end with the cancellation
marker, the dispatcher exits with code 1 and makes exactly one error-level
call `An error occurred: <message>` containing the original message. -/
theorem execute_error_logged (isDev : Bool) (stack msg : String)
    (h : goHasSuffix msg contextCanceledMsg = false) :
    (Execute isDev stack (.errored msg)).exit = some 1 ∧
    (Execute isDev stack (.errored msg)).calls =
      [⟨.err, "An error occurred: " ++ msg⟩] := by
  simp [Execute, h]

theorem execute_error_logged_witness :
    goHasSuffix "boom" contextCanceledMsg = false ∧
    (Execute false "" (.errored "boom")).exit = some 1 ∧
    (Execute false "" (.errored "boom")).calls =
      [⟨.err, "An error occurred: " ++ "boom"⟩] :=
  ⟨by decide,
    (execute_error_logged false "" "boom" (by decide)).1,
    (execute_error_logged false "" "boom" (by decide)).2⟩

/-- C3: every panic payload is recovered at the boundary and turns into
exit code 1; under developer mode the single error line carries the payload
and the stack trace, otherwise it is exactly `Unexpected error: <payload>`
with no stack trace appended. -/
theorem execute_panic_recovered (stack payload : String) (isDev : Bool) :
    (Execute isDev stack (.panicked payload)).exit = some 1 ∧
    (Execute true stack (.panicked payload)).calls =
      [⟨.err, payload ++ ": " ++ stack⟩] ∧
    (Execute false stack (.panicked payload)).calls =
      [⟨.err, "Unexpected error: " ++ payload⟩] := by
  refine ⟨?_, by simp [Execute], by simp [Execute]⟩
  cases isDev <;> simp [Execute]

/-- C4: for every quiet/verbose combination exactly one logger
configuration results: verbose (also together with quiet) gives all three
levels, quiet alone disables all three, and with neither flag the logger
installed by `init` (debug off, info and error on) stays in effect. -/
theorem preRunLogger_selection (p u : String) :
    preRunLogger ⟨true, true, p, u⟩ initLogger = NewLogger true true true ∧
    preRunLogger ⟨false, true, p, u⟩ initLogger = NewLogger true true true ∧
    preRunLogger ⟨true, false, p, u⟩ initLogger = NewLogger false false false ∧
    preRunLogger ⟨false, false, p, u⟩ initLogger = initLogger ∧
    initLogger = NewLogger false true true :=
  ⟨rfl, rfl, rfl, rfl, rfl⟩

/-- C5: the boundary yields exit code 0 exactly on successful completion
and exit code 1 on every error, cancellation and recovered panic; no other
exit code occurs. -/
theorem execute_exit_code_total (isDev : Bool) (stack : String)
    (r : RunResult) :
    exitCode (Execute isDev stack r) = if r = RunResult.ok then 0 else 1 := by
  cases r with
  | ok => rfl
  | errored m =>
      cases hb : goHasSuffix m contextCanceledMsg <;>
        simp [Execute, exitCode, hb]
  | panicked p => cases isDev <;> simp [Execute, exitCode]

/-- C6: whenever client construction fails, `PersistentPreRunE` returns
that very error and installs no client, so the failure surfaces as a
startup failure before any subcommand body runs. -/
theorem preRun_propagates_client_error (validProxyURL : String → Bool)
    (fl : Flags) (cur : Logger) (cmdName : String) (nargs : Nat) (e : String)
    (h : CreateOrDefaultClient validProxyURL fl.proxy fl.useragent =
      .error e) :
    (PersistentPreRunE validProxyURL fl cur cmdName nargs).error = some e ∧
    (PersistentPreRunE validProxyURL fl cur cmdName nargs).client = none := by
  simp [PersistentPreRunE, h]

theorem preRun_propagates_client_error_witness :
    CreateOrDefaultClient (fun _ => false)
        (Flags.proxy ⟨false, false, "bad url", "ua"⟩)
        (Flags.useragent ⟨false, false, "bad url", "ua"⟩) =
      .error "invalid proxy url: bad url" ∧
    (PersistentPreRunE (fun _ => false) ⟨false, false, "bad url", "ua"⟩
        initLogger "download" 0).error = some "invalid proxy url: bad url" ∧
    (PersistentPreRunE (fun _ => false) ⟨false, false, "bad url", "ua"⟩
        initLogger "download" 0).client = none :=
  ⟨by rfl,
    (preRun_propagates_client_error (fun _ => false)
      ⟨false, false, "bad url", "ua"⟩ initLogger "download" 0
      "invalid proxy url: bad url" (by rfl)).1,
    (preRun_propagates_client_error (fun _ => false)
      ⟨false, false, "bad url", "ua"⟩ initLogger "download" 0
      "invalid proxy url: bad url" (by rfl)).2⟩

/-- C7 counterexample: the message `operation failed: context canceled` is
not exactly the cancellation text, yet the dispatcher treats it as a
cancellation (no log line), because the check is a suffix match and not an
exact match. -/
theorem cancellation_not_exact_match :
    goHasSuffix "operation failed: context canceled" contextCanceledMsg =
      true ∧
    "operation failed: context canceled" ≠ contextCanceledMsg ∧
    (Execute false ""
      (.errored "operation failed: context canceled")).calls = [] ∧
    (Execute false ""
      (.errored "operation failed: context canceled")).exit = some 1 := by
  refine ⟨by decide, by decide, by decide, by decide⟩

/-- C7 amended: an error is treated as a cancellation (suppressed from
error logging, exit code 1) exactly when the cancellation text is a suffix
of its message, which includes proper suffixes of longer messages. -/
theorem cancellation_by_suffix (isDev : Bool) (stack msg : String) :
    ((Execute isDev stack (.errored msg)).calls = [] ↔
      goHasSuffix msg contextCanceledMsg = true) ∧
    (Execute isDev stack (.errored msg)).exit = some 1 := by
  cases hb : goHasSuffix msg contextCanceledMsg <;> simp [Execute, hb]

/-- C8: with no `--useragent` supplied the flag takes its registered
default `crunchy-cli/<version>`, and the pre-run hook builds the shared
client carrying exactly that user-agent. -/
theorem default_useragent_applied (version : String)
    (validProxyURL : String → Bool) (cur : Logger) :
    useragentFlagValue none version = "crunchy-cli/" ++ version ∧
    (PersistentPreRunE validProxyURL
        ⟨false, false, "", useragentFlagValue none version⟩
        cur "download" 1).client =
      some ⟨none, "crunchy-cli/" ++ version⟩ := by
  constructor
  · rfl
  · simp [PersistentPreRunE, CreateOrDefaultClient, useragentFlagValue,
      defaultUseragent]

/-- C9: in the pre-run hook the logger is reconfigured strictly before the
debug announcement and before client construction, and that debug call is
printed exactly under the flag-selected configuration: always under
verbose, never under quiet alone, and per the inherited configuration
otherwise; from the `init` default the debug line shows exactly when
verbose is set. -/
theorem preRun_order_and_gating (fl : Flags) (cur : Logger)
    (cmdName : String) (nargs : Nat) :
    preRunTrace fl cur cmdName nargs =
      [ .configureLogger (preRunLogger fl cur),
        .emitAttempt (preRunLogger fl cur)
          ⟨.debug, debugMsg cmdName nargs⟩
          (preRunLogger fl cur).debugEnabled,
        .buildClient fl.proxy fl.useragent ] ∧
    (preRunLogger fl cur).debugEnabled =
      (fl.verbose || (!fl.quiet && cur.debugEnabled)) ∧
    (preRunLogger fl initLogger).debugEnabled = fl.verbose := by
  refine ⟨rfl, ?_, ?_⟩ <;>
    cases hv : fl.verbose <;> cases hq : fl.quiet <;>
      simp [preRunLogger, hv, hq, NewLogger, initLogger]

/-- C10: an error arriving at the root boundary from any stage — flag
parsing, subcommand lookup, the pre-run hook or the command body — is
handled identically: cobra prints nothing because both `SilenceErrors` and
`SilenceUsage` are set, the boundary emits the single
`An error occurred: <message>` line unless the message ends with the
cancellation marker, and the exit code is 1. -/
theorem all_stages_same_boundary (isDev : Bool) (stack : String)
    (stage : CobraStage) (e : String) :
    (fullDispatch isDev stack stage (.error e)).1 = [] ∧
    (fullDispatch isDev stack stage (.error e)).2.exit = some 1 ∧
    (fullDispatch isDev stack stage (.error e)).2.calls =
      (if goHasSuffix e contextCanceledMsg then []
        else [⟨.err, "An error occurred: " ++ e⟩]) ∧
    fullDispatch isDev stack stage (.error e) =
      fullDispatch isDev stack .runBody (.error e) := by
  refine ⟨?_, ?_, ?_, ?_⟩ <;>
    cases stage <;> cases hb : goHasSuffix e contextCanceledMsg <;>
      simp [fullDispatch, cobraExecute, rootCmdSettings, Execute, hb]

end CrunchyCli
